import Mathlib

/-!
Shallow embedding of `src/runtime_ccall.cpp` (the native-interop layer of the
Julia runtime): library-handle registry, per-call-site symbol resolution,
trampoline page allocator, and the trampoline cache with its finalizer-driven
lifecycle.  Pointers are modelled as natural numbers (0 = NULL); the external
collaborators (platform loader, `jl_dlsym`, the type system and GC) are
modelled as oracle environments, following the spec's external-interface
section, since their implementations live outside the embedded file.
-/

deriving instance DecidableEq for Except

namespace JuliaCCall

/-- Association-list lookup; models lookup in `std::map` / `ptrhash_get`. -/
def assocFind {κ α : Type} [DecidableEq κ] (l : List (κ × α)) (k : κ) : Option α :=
  match l with
  | [] => none
  | (k', v) :: rest => if k' = k then some v else assocFind rest k

/-- Association-list insert-or-replace; models `std::map::operator[]` writes
and `ptrhash_put`. -/
def assocPut {κ α : Type} [DecidableEq κ] (l : List (κ × α)) (k : κ) (v : α) :
    List (κ × α) :=
  match l with
  | [] => [(k, v)]
  | (k', v') :: rest => if k' = k then (k, v) :: rest else (k', v') :: assocPut rest k v

/-- Association-list removal of (the first binding of) a key; models
`ptrhash_remove`. -/
def assocRemove {κ α : Type} [DecidableEq κ] (l : List (κ × α)) (k : κ) :
    List (κ × α) :=
  match l with
  | [] => []
  | (k', v') :: rest => if k' = k then rest else (k', v') :: assocRemove rest k

/-! ## Library handle registry and symbol resolver -/

/-- A `const char *` argument: a pointer identity plus the pointed-to string
contents.  `jl_get_library_` compares the pointer, never the contents. -/
structure CStr where
  ptr : Nat
  str : String
deriving DecidableEq

/-- Modelled from the spec: the reserved sentinel name constants and fixed
handles (`JL_EXE_LIBNAME` etc. and `jl_exe_handle` etc.) are declared outside
the embedded file; the spec says reserved sentinel names map to fixed handles
without touching the registry.  Their identities are fixed distinct pointers;
the string contents are immaterial (recognition is by identity). -/
def JL_EXE_LIBNAME : CStr := ⟨1, "@exe"⟩

def JL_LIBJULIA_INTERNAL_DL_LIBNAME : CStr := ⟨2, "@libjulia-internal"⟩

def JL_LIBJULIA_DL_LIBNAME : CStr := ⟨3, "@libjulia"⟩

def jl_RTLD_DEFAULT_handle : Nat := 101

def jl_exe_handle : Nat := 102

def jl_libjulia_internal_handle : Nat := 103

def jl_libjulia_handle : Nat := 104

/-- Modelled from the spec: the platform loader and symbol-lookup primitives
(`jl_load_dynamic_library`, `jl_dlsym`) are external collaborators implemented
outside the embedded file; the spec gives
`load_library(name, flags) -> handle | null` and
`lookup_symbol(handle, name) -> address | failure`.  Both are deterministic
oracles here; `none` is the failure outcome. -/
structure SymEnv where
  loader : String → Option Nat
  dlsym : Nat → String → Option Nat

inductive LibErr where
  | libNotFound
  | symNotFound
deriving DecidableEq

/-- Observable state of the registry component: the `libMap` contents plus
invocation counters for the two platform primitives (used to state the
"loader invoked at most once" style properties). -/
structure LibState where
  libMap : List (String × Nat)
  loaderCalls : Nat
  dlsymCalls : Nat
deriving DecidableEq

/-- The registry path of `jl_get_library_` (the code after the sentinel
comparisons): `std::map::operator[]` default-inserts a NULL entry, then the
loader is consulted only when the stored handle is NULL, and only a non-NULL
result is stored back.  With `throw_err`, a failed load raises (inside
`jl_load_dynamic_library`) before anything is stored. -/
def libMapResolve (env : SymEnv) (name : String) (throw_err : Bool)
    (st : LibState) : Except LibErr Nat × LibState :=
  let m0 := match assocFind st.libMap name with
            | some _ => st.libMap
            | none => assocPut st.libMap name 0
  let hnd0 := (assocFind m0 name).getD 0
  if hnd0 ≠ 0 then
    (.ok hnd0, { st with libMap := m0 })
  else
    let hnd := (env.loader name).getD 0
    if hnd = 0 then
      if throw_err then
        (.error .libNotFound, { st with libMap := m0, loaderCalls := st.loaderCalls + 1 })
      else
        (.ok 0, { st with libMap := m0, loaderCalls := st.loaderCalls + 1 })
    else
      (.ok hnd, { st with libMap := assocPut m0 name hnd, loaderCalls := st.loaderCalls + 1 })

/-- `jl_get_library_` (runtime_ccall.cpp:29-52): NULL and the three sentinel
names are recognized by pointer comparison and map to fixed handles without
touching the registry; everything else goes through the locked registry path. -/
def jl_get_library_ (env : SymEnv) (f_lib : Option CStr) (throw_err : Bool)
    (st : LibState) : Except LibErr Nat × LibState :=
  match f_lib with
  | none => (.ok jl_RTLD_DEFAULT_handle, st)
  | some l =>
    if l.ptr = JL_EXE_LIBNAME.ptr then (.ok jl_exe_handle, st)
    else if l.ptr = JL_LIBJULIA_INTERNAL_DL_LIBNAME.ptr then
      (.ok jl_libjulia_internal_handle, st)
    else if l.ptr = JL_LIBJULIA_DL_LIBNAME.ptr then (.ok jl_libjulia_handle, st)
    else libMapResolve env l.str throw_err st

/-- `jl_load_and_lookup` (runtime_ccall.cpp:54-63).  The call-site cache cell
`hnd` holds the *library handle* (0 = NULL): when NULL, the handle obtained
from `jl_get_library` (= `jl_get_library_` with `throw_err`, modelled from the
spec since the macro lives outside the embedded file) is stored into the cell;
then `jl_dlsym` runs on *every* call, raising symbol-not-found on failure.
Returns (result, cell contents afterwards, state afterwards). -/
def jl_load_and_lookup (env : SymEnv) (f_lib : Option CStr) (f_name : String)
    (cell : Nat) (st : LibState) : Except LibErr Nat × Nat × LibState :=
  if cell = 0 then
    match jl_get_library_ env f_lib true st with
    | (.error e, st1) => (.error e, cell, st1)
    | (.ok h, st1) =>
      let st2 := { st1 with dlsymCalls := st1.dlsymCalls + 1 }
      match env.dlsym h f_name with
      | some p => (.ok p, h, st2)
      | none => (.error .symNotFound, h, st2)
  else
    let st2 := { st with dlsymCalls := st.dlsymCalls + 1 }
    match env.dlsym cell f_name with
    | some p => (.ok p, cell, st2)
    | none => (.error .symNotFound, cell, st2)

/-! ## Trampoline page allocator, cache and lifecycle -/

/-- A Julia runtime value (`jl_value_t*`), identified — as in the cache and all
comparisons of the embedded code — purely by its pointer identity. -/
structure JVal where
  id : Nat
deriving DecidableEq

/-- Modelled from the spec: the type-system and object/GC primitives used by
`jl_get_cfunction_trampoline` (`jl_typeof`, `jl_is_concrete_type`,
`jl_is_immutable`, the `instance` field, `jl_is_unionall`,
`jl_unwrap_unionall`, `jl_is_datatype`, the `name->wrapper` field,
`jl_instantiate_type_in_env`, and whether the GC allocations succeed) are
implemented outside the embedded file; the spec lists them as external
interfaces.  They are a deterministic oracle environment here.  `instanceOf`
is the `instance` field of a datatype (`none` = NULL); `nameWrapper` is the
`name->wrapper` field read only under an `isDatatype` guard, as in the code.
`instantiate` takes the template entry and the identities of the `env` and
`vals` arguments; `none` models a thrown type-instantiation failure.
`allocOk = false` models the wrapper allocation of step 3 throwing. -/
structure TypeEnv where
  typeof : JVal → JVal
  isConcreteType : JVal → Bool
  isImmutable : JVal → Bool
  instanceOf : JVal → Option JVal
  isUnionall : JVal → Bool
  unwrapUnionall : JVal → JVal
  isDatatype : JVal → Bool
  nameWrapper : JVal → JVal
  anyType : JVal
  voidpointerType : JVal
  instantiate : JVal → Nat → Nat → Option JVal
  allocOk : Bool

inductive TErr where
  | instFailure
  | oom
deriving DecidableEq

/-- A value stored in the weakref htable: either a wrapper (flat use, empty
specialization template) or an inner table (two-level use, keyed by the
`vals` identity).  The C code stores both through the same `htable_t`;
a given call site uses its table in exactly one of the two ways. -/
inductive TVal where
  | w (wid : Nat)
  | tbl (t : List (Nat × Nat))
deriving DecidableEq

/-- Which table a wrapper's `f[2]` back-reference denotes: the call-site table
itself, or the inner table found under key `vp` (the `vals` identity). -/
inductive CacheRef where
  | top
  | inner (vp : Nat)
deriving DecidableEq

/-- `ptrhash_get` through a `CacheRef`.  Reading a wrapper where a table is
expected (or vice versa) is mixed usage, undefined in C; it yields `none`. -/
def cacheRefGet (c : List (Nat × TVal)) (r : CacheRef) (k : Nat) : Option Nat :=
  match r with
  | .top =>
    match assocFind c k with
    | some (.w wid) => some wid
    | _ => none
  | .inner vp =>
    match assocFind c vp with
    | some (.tbl t) => assocFind t k
    | _ => none

/-- `ptrhash_put` through a `CacheRef`. -/
def cachePut (c : List (Nat × TVal)) (r : CacheRef) (k : Nat) (wid : Nat) :
    List (Nat × TVal) :=
  match r with
  | .top => assocPut c k (.w wid)
  | .inner vp =>
    match assocFind c vp with
    | some (.tbl t) => assocPut c vp (.tbl (assocPut t k wid))
    | _ => assocPut c vp (.tbl (assocPut [] k wid))

/-- `ptrhash_remove` through a `CacheRef`. -/
def cacheRemove (c : List (Nat × TVal)) (r : CacheRef) (k : Nat) :
    List (Nat × TVal) :=
  match r with
  | .top => assocRemove c k
  | .inner vp =>
    match assocFind c vp with
    | some (.tbl t) => assocPut c vp (.tbl (assocRemove t k))
    | _ => c

/-- The trampoline wrapper object: `f0`–`f3` are the four pointer-sized slots
`((void**)result)[0..3]` (trampoline slot address, callable identity, owning
table back-reference, specialization buffer).  `permanent` records which
allocation arena produced it and `hasFinalizer` whether `trampoline_deleter`
was registered. -/
structure Wrapper where
  f0 : Option Nat
  f1 : Option JVal
  f2 : Option CacheRef
  f3 : Option Nat
  permanent : Bool
  hasFinalizer : Bool
deriving DecidableEq

/-- Global state shared by the page allocator and one call-site cache:
the slot free list, the number of mapped pages, fresh-address and fresh-id
counters, the call-site htable (`none` = `cache->table` is NULL), and heaps
of live wrappers and malloc'd specialization buffers.  `initCalls` records
each `init_trampoline(slot, nval)` invocation (the injected code generator),
newest last. -/
structure TrampState where
  freelist : List Nat
  pagesMapped : Nat
  nextAddr : Nat
  nextId : Nat
  cache : Option (List (Nat × TVal))
  wrappers : List (Nat × Wrapper)
  buffers : List (Nat × List (Option JVal))
  initCalls : List (Nat × List (Option JVal))
deriving DecidableEq

/-- Slot size used by `trampoline_alloc` (`const int sz = 64`). -/
def slotSz : Nat := 64

/-- `jl_page_size` (4096 on the platforms modelled). -/
def pageSize : Nat := 4096

/-- Carving a fresh page into slots (runtime_ccall.cpp:239-244): the loop
links slot `i` in front of the list built so far, so the resulting free list
starts at the highest-addressed slot and ends at the page base. -/
def carvePage (base : Nat) : List Nat :=
  (((List.range (pageSize / slotSz)).map (fun i => base + i * slotSz))).reverse

/-- `trampoline_alloc` (runtime_ccall.cpp:217-249): pop the free-list head,
mapping and carving one new executable page first when the list is empty.
Mapping is modelled as always succeeding (a failed `mmap` throws an
out-of-memory condition; no claim exercises that path). -/
def trampoline_alloc (st : TrampState) : Nat × TrampState :=
  match st.freelist with
  | t :: rest => (t, { st with freelist := rest })
  | [] =>
    match carvePage st.nextAddr with
    | t :: rest =>
      (t, { st with
              freelist := rest
              nextAddr := st.nextAddr + pageSize
              pagesMapped := st.pagesMapped + 1 })
    | [] => (0, st)

/-- `trampoline_free` (runtime_ccall.cpp:251-255): push the slot back onto the
free-list head; no zeroing, no unmapping. -/
def trampoline_free (tramp : Nat) (st : TrampState) : TrampState :=
  { st with freelist := tramp :: st.freelist }

/-- `trampoline_deleter` (runtime_ccall.cpp:257-274): read the wrapper's four
slots, null `f[0]`, `f[2]`, `f[3]` (`f[1]` is left in place), then under the
lock free the slot if present, remove the cache entry if both the callable
identity and the table back-reference are present, and free the
specialization buffer if present. -/
def trampoline_deleter (wid : Nat) (st : TrampState) : TrampState :=
  match assocFind st.wrappers wid with
  | none => st
  | some w =>
    let st1 := { st with
      wrappers := assocPut st.wrappers wid { w with f0 := none, f2 := none, f3 := none } }
    let st2 := match w.f0 with
      | some t => trampoline_free t st1
      | none => st1
    let st3 := match w.f1, w.f2 with
      | some fo, some r => { st2 with cache := some (cacheRemove (st2.cache.getD []) r fo.id) }
      | _, _ => st2
    match w.f3 with
    | some b => { st3 with buffers := assocRemove st3.buffers b }
    | none => st3

/-- The filter applied to each instantiated specialization value
(runtime_ccall.cpp:319-321): any value other than `jl_any_type` that is not
both a concrete type and immutable is replaced by NULL. -/
def sanitize (tenv : TypeEnv) (v : JVal) : Option JVal :=
  if v = tenv.anyType then some v
  else if tenv.isConcreteType v && tenv.isImmutable v then some v
  else none

/-- The instantiation loop of step 2 (runtime_ccall.cpp:317-323): instantiate
each template entry in order, stopping at the first thrown failure, and
sanitize each successful value. -/
def buildNvalEntries (tenv : TypeEnv) (envPtr valsPtr : Nat) :
    List JVal → Except TErr (List (Option JVal))
  | [] => .ok []
  | e :: rest =>
    match tenv.instantiate e envPtr valsPtr with
    | none => .error .instFailure
    | some v =>
      match buildNvalEntries tenv envPtr valsPtr rest with
      | .error err => .error err
      | .ok tail => .ok (sanitize tenv v :: tail)

/-- One entry of the expected buffer contents: instantiation then sanitizing
(the `none` branch is unreachable when instantiation succeeds). -/
def sanitizeInst (tenv : TypeEnv) (envPtr valsPtr : Nat) (e : JVal) : Option JVal :=
  match tenv.instantiate e envPtr valsPtr with
  | some v => sanitize tenv v
  | none => none

/-- The permanence decision (runtime_ccall.cpp:324-332): raw-code-pointer
result shape, concrete-type callable, singleton-instance callable, or a
unionall whose unwrapped body is a datatype whose `name->wrapper` is the
callable itself. -/
def isPermanent (tenv : TypeEnv) (fobj rt : JVal) : Bool :=
  (decide (rt = tenv.voidpointerType) ||
    tenv.isConcreteType fobj ||
    decide (tenv.instanceOf (tenv.typeof fobj) = some fobj)) ||
  (tenv.isUnionall fobj &&
    (tenv.isDatatype (tenv.unwrapUnionall fobj) &&
      decide (tenv.nameWrapper (tenv.unwrapUnionall fobj) = fobj)))

/-- Step 1 of `jl_get_cfunction_trampoline` after the lazy `htable_new`
(runtime_ccall.cpp:296-303): with a non-empty specialization template the
table is outer-keyed by the `vals` identity and the inner table is
found-or-created; with an empty template the table is used flat.  Returns the
reference the rest of the call works through and the (possibly extended)
table. -/
def phase1 (c : List (Nat × TVal)) (fillEmpty : Bool) (valsPtr : Nat) :
    CacheRef × List (Nat × TVal) :=
  if fillEmpty then (.top, c)
  else
    match assocFind c valsPtr with
    | some (.tbl _) => (.inner valsPtr, c)
    | some (.w _) => (.inner valsPtr, c)
    | none => (.inner valsPtr, assocPut c valsPtr (.tbl []))

/-- The cache-miss build (runtime_ccall.cpp:311-361): malloc the n+1
specialization buffer with the callable in slot 0, run the instantiation
loop, decide permanence, allocate the wrapper (zero-initialized permanent
object, or managed object with the `trampoline_deleter` finalizer plus the
table back-reference and buffer in `f[2]`/`f[3]`), then under the lock pop a
slot, store it in `f[0]`, invoke the injected initializer, and insert
`callable -> wrapper` as the final cache operation.  A failure thrown in
step 2 or step 3 frees the buffer and propagates. -/
def buildTrampoline (tenv : TypeEnv) (fobj rt : JVal) (fill : List JVal)
    (envPtr valsPtr : Nat) (r : CacheRef) (c1 : List (Nat × TVal))
    (st1 : TrampState) : Except TErr Nat × TrampState :=
  match buildNvalEntries tenv envPtr valsPtr fill with
  | .error e => (.error e, st1)
  | .ok entries =>
    if tenv.allocOk then
      let nvalContents := some fobj :: entries
      let wid := st1.nextId
      let bid := st1.nextId + 1
      let perm := isPermanent tenv fobj rt
      let w0 : Wrapper :=
        { f0 := none
        , f1 := if rt = tenv.voidpointerType then none else some fobj
        , f2 := if perm then none else some r
        , f3 := if perm then none else some bid
        , permanent := perm
        , hasFinalizer := !perm }
      let ta := trampoline_alloc { st1 with nextId := st1.nextId + 2 }
      let st2 := ta.2
      (.ok wid,
        { st2 with
          cache := some (cachePut c1 r fobj.id wid)
        , wrappers := assocPut st2.wrappers wid { w0 with f0 := some ta.1 }
        , buffers := assocPut st2.buffers bid nvalContents
        , initCalls := st2.initCalls ++ [(ta.1, nvalContents)] })
    else (.error .oom, st1)

/-- `jl_get_cfunction_trampoline` (runtime_ccall.cpp:280-362).  The `cache`
and `init_trampoline` call-site constants live in `TrampState`; `env` and
`vals` enter as their pointer identities.  Returns the wrapper id (or the
propagated failure) together with the state afterwards. -/
def jl_get_cfunction_trampoline (tenv : TypeEnv) (fobj rt : JVal)
    (fill : List JVal) (envPtr valsPtr : Nat) (st : TrampState) :
    Except TErr Nat × TrampState :=
  let c0 := st.cache.getD []
  let p := phase1 c0 fill.isEmpty valsPtr
  match cacheRefGet p.2 p.1 fobj.id with
  | some wid => (.ok wid, { st with cache := some p.2 })
  | none => buildTrampoline tenv fobj rt fill envPtr valsPtr p.1 p.2
      { st with cache := some p.2 }

/-! ## Spec-side definitions (for the refinement-style permanence claim) -/

/-- The "canonical wrapper" of a callable in the spec's words: the
`name->wrapper` of the unwrapped unionall body, which exists exactly when
that body is a datatype. -/
def canonicalWrapper (tenv : TypeEnv) (v : JVal) : Option JVal :=
  if tenv.isDatatype (tenv.unwrapUnionall v) then
    some (tenv.nameWrapper (tenv.unwrapUnionall v))
  else none

/-- The permanence condition as the claim states it: the result shape is the
raw code-pointer shape, or the callable is a concrete type value, or the
callable is the unique singleton instance of its type, or the callable is a
parametric type constructor (unionall) whose canonical wrapper equals
itself. -/
def permSpec (tenv : TypeEnv) (fobj rt : JVal) : Prop :=
  rt = tenv.voidpointerType
  ∨ tenv.isConcreteType fobj = true
  ∨ tenv.instanceOf (tenv.typeof fobj) = some fobj
  ∨ (tenv.isUnionall fobj = true ∧ canonicalWrapper tenv fobj = some fobj)

/-! ## Concrete instances used by witnesses and counterexamples -/

/-- Empty registry/resolver state. -/
def libSt0 : LibState := ⟨[], 0, 0⟩

/-- Environment where library "m" loads as handle 7 but no symbol ever
resolves. -/
def envSymAbsent : SymEnv :=
  ⟨fun s => if s = "m" then some 7 else none, fun _ _ => none⟩

/-- Environment where handle 5 resolves every symbol to address 9. -/
def envSymPresent : SymEnv :=
  ⟨fun _ => none, fun h _ => if h = 5 then some 9 else none⟩

/-- Environment where no library ever loads. -/
def envLoadFail : SymEnv :=
  ⟨fun _ => none, fun _ _ => none⟩

/-- A non-sentinel library name whose characters can be chosen freely. -/
def libNameM : CStr := ⟨10, "m"⟩

/-- A non-sentinel name whose characters equal `JL_EXE_LIBNAME`'s
character-for-character but whose identity differs. -/
def libNameExeCopy : CStr := ⟨999, JL_EXE_LIBNAME.str⟩

/-- A trivial type-system oracle: nothing is concrete, immutable, a
singleton, or a unionall; instantiation is the identity; allocation
succeeds.  Value 100 is the raw-code-pointer shape, 60 the "any" type. -/
def tenvBase : TypeEnv :=
  { typeof := fun _ => ⟨50⟩
  , isConcreteType := fun _ => false
  , isImmutable := fun _ => false
  , instanceOf := fun _ => none
  , isUnionall := fun _ => false
  , unwrapUnionall := fun v => v
  , isDatatype := fun _ => false
  , nameWrapper := fun v => v
  , anyType := ⟨60⟩
  , voidpointerType := ⟨100⟩
  , instantiate := fun e _ _ => some e
  , allocOk := true }

/-- `tenvBase` with a failing wrapper allocation. -/
def tenvAllocFail : TypeEnv := { tenvBase with allocOk := false }

/-- `tenvBase` with failing type instantiation. -/
def tenvInstFail : TypeEnv := { tenvBase with instantiate := fun _ _ _ => none }

/-- A fresh trampoline state with two free slots already carved. -/
def trampSt0 : TrampState := ⟨[500, 564], 1, 4096, 0, none, [], [], []⟩

/-- The state after a first (missing) trampoline request for callable 5 with
raw-pointer result shape on `trampSt0`. -/
def c1st1 : TrampState :=
  (jl_get_cfunction_trampoline tenvBase ⟨5⟩ ⟨100⟩ [] 0 0 trampSt0).2

/-- A two-entry specialization template: the "any" value 60 and a
non-concrete value 7. -/
def c5fill : List JVal := [⟨60⟩, ⟨7⟩]

/-- The state after a first (missing) two-level trampoline request for
callable 5 with managed result shape 101 and template `[60, 7]`. -/
def c4st1 : TrampState :=
  (jl_get_cfunction_trampoline tenvBase ⟨5⟩ ⟨101⟩ c5fill 9 9 trampSt0).2

/-- A state holding one fully populated managed wrapper (id 0, slot 7,
callable 3, flat table back-reference, buffer 1) for the deleter claims. -/
def delSt0 : TrampState :=
  ⟨[], 1, 4096, 2,
   some [(3, .w 0)],
   [(0, ⟨some 7, some ⟨3⟩, some .top, some 1, false, true⟩)],
   [(1, [some ⟨3⟩])], []⟩

/-- The registry state after one failed resolution of "m" with errors
deferred. -/
def c8st1 : LibState := (jl_get_library_ envLoadFail (some libNameM) false libSt0).2

/-- The registry state after one successful resolution of "m". -/
def c8stOk : LibState := (jl_get_library_ envSymAbsent (some libNameM) true libSt0).2

/-! ## General lemmas about the embedded operations -/

theorem assocFind_assocPut_self {κ α : Type} [DecidableEq κ]
    (l : List (κ × α)) (k : κ) (v : α) : assocFind (assocPut l k v) k = some v := by
  induction l with
  | nil => simp [assocPut, assocFind]
  | cons hd tl ih =>
    by_cases h : hd.1 = k
    · simp [assocPut, assocFind, h]
    · simpa [assocPut, assocFind, h] using ih

theorem assocFind_assocPut_ne {κ α : Type} [DecidableEq κ]
    (l : List (κ × α)) (k' k : κ) (v : α) (h : k' ≠ k) :
    assocFind (assocPut l k' v) k = assocFind l k := by
  induction l with
  | nil => simp [assocPut, assocFind, h]
  | cons hd tl ih =>
    obtain ⟨a, b⟩ := hd
    by_cases h1 : a = k'
    · simp [assocPut, assocFind, h1, h, Ne.symm h]
    · by_cases h2 : a = k
      · simp [assocPut, assocFind, h1, h2, Ne.symm h]
      · simpa [assocPut, assocFind, h1, h2] using ih

theorem assocPut_eq_of_find {κ α : Type} [DecidableEq κ]
    (l : List (κ × α)) (k : κ) (v : α) (h : assocFind l k = some v) :
    assocPut l k v = l := by
  induction l with
  | nil => simp [assocFind] at h
  | cons hd tl ih =>
    obtain ⟨a, b⟩ := hd
    by_cases h1 : a = k
    · simp [assocFind, h1] at h
      simp [assocPut, h1, ← h]
    · simp [assocFind, h1] at h
      simp [assocPut, h1, ih h]

theorem libMapResolve_idem (env : SymEnv) (name : String) (te : Bool)
    (st st1 : LibState) (h : Nat)
    (hcall : libMapResolve env name te st = (.ok h, st1)) (hh : h ≠ 0) :
    libMapResolve env name te st1 = (.ok h, st1)
    ∧ st1.loaderCalls ≤ st.loaderCalls + 1 := by
  unfold libMapResolve at hcall ⊢
  rcases hf : assocFind st.libMap name with _ | v
  · -- key absent: a NULL entry is default-inserted, then the loader runs
    simp only [hf, Option.getD_some, assocFind_assocPut_self] at hcall
    by_cases hg : (env.loader name).getD 0 = 0
    · cases te
      · simp [hg] at hcall
        obtain ⟨h1, h2⟩ := hcall
        omega
      · simp [hg] at hcall
    · simp [hg] at hcall
      obtain ⟨h1, h2⟩ := hcall
      subst h2
      subst h1
      refine ⟨?_, by simp⟩
      simp [assocFind_assocPut_self, hg]
  · -- key present with stored handle v
    simp only [hf, Option.getD_some] at hcall
    by_cases hv0 : v = 0
    · subst hv0
      by_cases hg : (env.loader name).getD 0 = 0
      · cases te
        · simp [hg] at hcall
          obtain ⟨h1, h2⟩ := hcall
          omega
        · simp [hg] at hcall
      · simp [hg] at hcall
        obtain ⟨h1, h2⟩ := hcall
        subst h2
        subst h1
        refine ⟨?_, by simp⟩
        simp [assocFind_assocPut_self, hg]
    · simp [hv0] at hcall
      obtain ⟨h1, h2⟩ := hcall
      subst h2
      subst h1
      refine ⟨?_, by simp⟩
      simp [hf, hv0]

theorem cacheRefGet_cachePut_self (c : List (Nat × TVal)) (r : CacheRef)
    (k wid : Nat) : cacheRefGet (cachePut c r k wid) r k = some wid := by
  cases r with
  | top => simp [cacheRefGet, cachePut, assocFind_assocPut_self]
  | inner vp =>
    rcases h : assocFind c vp with _ | tv
    · simp [cacheRefGet, cachePut, h, assocFind_assocPut_self]
    · cases tv <;> simp [cacheRefGet, cachePut, h, assocFind_assocPut_self]

theorem phase1_idem (c : List (Nat × TVal)) (fe : Bool) (vp : Nat) :
    phase1 (phase1 c fe vp).2 fe vp = phase1 c fe vp := by
  cases fe with
  | true => simp [phase1]
  | false =>
    rcases h : assocFind c vp with _ | tv
    · simp [phase1, h, assocFind_assocPut_self]
    · cases tv <;> simp [phase1, h]

theorem phase1_put (c : List (Nat × TVal)) (fe : Bool) (vp k wid : Nat) :
    phase1 (cachePut (phase1 c fe vp).2 (phase1 c fe vp).1 k wid) fe vp
      = ((phase1 c fe vp).1, cachePut (phase1 c fe vp).2 (phase1 c fe vp).1 k wid) := by
  cases fe with
  | true => simp [phase1, cachePut]
  | false =>
    rcases h : assocFind c vp with _ | tv
    · simp [phase1, h, cachePut, assocFind_assocPut_self]
    · cases tv <;> simp [phase1, h, cachePut, assocFind_assocPut_self]

theorem phase1_preserves_get (c : List (Nat × TVal)) (fe : Bool) (vp : Nat)
    (r : CacheRef) (k : Nat) :
    cacheRefGet (phase1 c fe vp).2 r k = cacheRefGet c r k := by
  cases fe with
  | true => simp [phase1]
  | false =>
    rcases h : assocFind c vp with _ | tv
    · cases r with
      | top =>
        by_cases hk : vp = k
        · subst hk
          simp [phase1, h, cacheRefGet, assocFind_assocPut_self]
        · simp [phase1, h, cacheRefGet, assocFind_assocPut_ne _ _ _ _ hk]
      | inner vp' =>
        by_cases hk : vp = vp'
        · subst hk
          simp [phase1, h, cacheRefGet, assocFind_assocPut_self, assocFind]
        · simp [phase1, h, cacheRefGet, assocFind_assocPut_ne _ _ _ _ hk]
    · cases tv <;> simp [phase1, h]

theorem trampoline_alloc_cons (t : Nat) (rest : List Nat) (s : TrampState)
    (h : s.freelist = t :: rest) :
    trampoline_alloc s = (t, { s with freelist := rest }) := by
  unfold trampoline_alloc
  rw [h]

theorem trampoline_alloc_cache (s : TrampState) :
    (trampoline_alloc s).2.cache = s.cache := by
  unfold trampoline_alloc
  rcases h : s.freelist with _ | ⟨t, rest⟩
  · rcases hc : carvePage s.nextAddr with _ | ⟨t2, r2⟩ <;> simp
  · simp

theorem trampoline_alloc_wrappers (s : TrampState) :
    (trampoline_alloc s).2.wrappers = s.wrappers := by
  unfold trampoline_alloc
  rcases h : s.freelist with _ | ⟨t, rest⟩
  · rcases hc : carvePage s.nextAddr with _ | ⟨t2, r2⟩ <;> simp
  · simp

theorem trampoline_alloc_buffers (s : TrampState) :
    (trampoline_alloc s).2.buffers = s.buffers := by
  unfold trampoline_alloc
  rcases h : s.freelist with _ | ⟨t, rest⟩
  · rcases hc : carvePage s.nextAddr with _ | ⟨t2, r2⟩ <;> simp
  · simp

theorem trampoline_alloc_initCalls (s : TrampState) :
    (trampoline_alloc s).2.initCalls = s.initCalls := by
  unfold trampoline_alloc
  rcases h : s.freelist with _ | ⟨t, rest⟩
  · rcases hc : carvePage s.nextAddr with _ | ⟨t2, r2⟩ <;> simp
  · simp

theorem trampoline_alloc_nextId (s : TrampState) :
    (trampoline_alloc s).2.nextId = s.nextId := by
  unfold trampoline_alloc
  rcases h : s.freelist with _ | ⟨t, rest⟩
  · rcases hc : carvePage s.nextAddr with _ | ⟨t2, r2⟩ <;> simp
  · simp

theorem buildNvalEntries_ok (tenv : TypeEnv) (envPtr valsPtr : Nat)
    (fill : List JVal)
    (h : ∀ e ∈ fill, (tenv.instantiate e envPtr valsPtr).isSome) :
    buildNvalEntries tenv envPtr valsPtr fill
      = .ok (fill.map (sanitizeInst tenv envPtr valsPtr)) := by
  induction fill with
  | nil => simp [buildNvalEntries]
  | cons e rest ih =>
    have he : (tenv.instantiate e envPtr valsPtr).isSome := h e (by simp)
    rcases hv : tenv.instantiate e envPtr valsPtr with _ | v
    · simp [hv] at he
    · simp [buildNvalEntries, hv, ih (fun x hx => h x (by simp [hx])), sanitizeInst]

theorem isPermanent_iff (tenv : TypeEnv) (fobj rt : JVal) :
    isPermanent tenv fobj rt = true ↔ permSpec tenv fobj rt := by
  unfold isPermanent permSpec canonicalWrapper
  by_cases hd : tenv.isDatatype (tenv.unwrapUnionall fobj) = true <;>
    simp [hd, Bool.or_eq_true, Bool.and_eq_true, decide_eq_true_eq, or_assoc]

theorem trampoline_deleter_idem (wid : Nat) (st : TrampState) :
    trampoline_deleter wid (trampoline_deleter wid st) = trampoline_deleter wid st := by
  rcases h : assocFind st.wrappers wid with _ | w
  · simp [trampoline_deleter, h]
  · obtain ⟨f0, f1, f2, f3, pm, hf⟩ := w
    rcases f0 with _ | t <;> rcases f1 with _ | fo <;> rcases f2 with _ | r <;>
      rcases f3 with _ | b <;>
      simp [trampoline_deleter, h, trampoline_free, assocFind_assocPut_self,
        assocPut_eq_of_find]

theorem get_trampoline_empty_fill (tenv : TypeEnv) (fobj rt : JVal)
    (envPtr valsPtr : Nat) (s : TrampState)
    (hmiss : cacheRefGet (s.cache.getD []) .top fobj.id = none)
    (ha : tenv.allocOk = true) (t : Nat) (rest : List Nat)
    (hfree : s.freelist = t :: rest) :
    jl_get_cfunction_trampoline tenv fobj rt [] envPtr valsPtr s
      = (.ok s.nextId,
         { s with
           freelist := rest
         , nextId := s.nextId + 2
         , cache := some (cachePut (s.cache.getD []) .top fobj.id s.nextId)
         , wrappers := assocPut s.wrappers s.nextId
             { f0 := some t
             , f1 := if rt = tenv.voidpointerType then none else some fobj
             , f2 := if isPermanent tenv fobj rt then none else some .top
             , f3 := if isPermanent tenv fobj rt then none
                     else some (s.nextId + 1)
             , permanent := isPermanent tenv fobj rt
             , hasFinalizer := !isPermanent tenv fobj rt }
         , buffers := assocPut s.buffers (s.nextId + 1) [some fobj]
         , initCalls := s.initCalls ++ [(t, [some fobj])] }) := by
  unfold jl_get_cfunction_trampoline buildTrampoline
  simp only [List.isEmpty_nil, phase1, if_true, buildNvalEntries]
  rw [hmiss, ha, hfree]
  rfl

theorem trampoline_deleter_freelist (wid : Nat) (st : TrampState) (w : Wrapper)
    (t : Nat) (hw : assocFind st.wrappers wid = some w) (h0 : w.f0 = some t) :
    (trampoline_deleter wid st).freelist = t :: st.freelist
    ∧ (trampoline_deleter wid st).pagesMapped = st.pagesMapped
    ∧ (trampoline_deleter wid st).nextId = st.nextId := by
  obtain ⟨f0, f1, f2, f3, pm, hf⟩ := w
  simp only at h0
  subst h0
  rcases f1 with _ | fo <;> rcases f2 with _ | r <;> rcases f3 with _ | b <;>
    simp [trampoline_deleter, hw, trampoline_free]

/-! ## Claim theorems -/

/-- C1: two calls to `jl_get_cfunction_trampoline` with the same
(callable, specialization-inputs) pair and the same table, without an
intervening collection between them, return the identical wrapper object:
if the first call returned wrapper `wid` leaving state `st'`, the second
call on `st'` hits the cache and returns the same `wid`, leaving the state
unchanged. -/
theorem c1_same_pair_returns_identical_wrapper (tenv : TypeEnv)
    (fobj rt : JVal) (fill : List JVal) (envPtr valsPtr : Nat)
    (st st' : TrampState) (wid : Nat)
    (h : jl_get_cfunction_trampoline tenv fobj rt fill envPtr valsPtr st
      = (.ok wid, st')) :
    jl_get_cfunction_trampoline tenv fobj rt fill envPtr valsPtr st'
      = (.ok wid, st') := by
  unfold jl_get_cfunction_trampoline at h ⊢
  simp only at h ⊢
  rcases hq : cacheRefGet (phase1 (st.cache.getD []) fill.isEmpty valsPtr).2
      (phase1 (st.cache.getD []) fill.isEmpty valsPtr).1 fobj.id with _ | wid0
  · -- first call missed: the build inserted (fobj -> wid) as its last step
    rw [hq] at h
    unfold buildTrampoline at h
    rcases hb : buildNvalEntries tenv envPtr valsPtr fill with e | entries <;>
      rw [hb] at h
    · simp at h
    · rcases ha : tenv.allocOk with _ | _ <;> rw [ha] at h
      · simp at h
      · simp only [if_true, Prod.mk.injEq, Except.ok.injEq] at h
        obtain ⟨h1, h2⟩ := h
        subst h2
        simp only [Option.getD_some, phase1_put, cacheRefGet_cachePut_self]
        subst h1
        rfl
  · -- first call hit
    rw [hq] at h
    simp only [Prod.mk.injEq, Except.ok.injEq] at h
    obtain ⟨h1, h2⟩ := h
    subst h1
    subst h2
    simp only [Option.getD_some, phase1_idem, hq]

/-- Witness for C1: after a concrete first request for callable 5, repeating
the request returns the same wrapper (id 0) and leaves the state unchanged. -/
theorem c1_witness :
    jl_get_cfunction_trampoline tenvBase ⟨5⟩ ⟨100⟩ [] 0 0 c1st1 = (.ok 0, c1st1) :=
  c1_same_pair_returns_identical_wrapper tenvBase ⟨5⟩ ⟨100⟩ [] 0 0 trampSt0 c1st1 0
    (by decide)

/-- C4: on a successful cache-miss build, the wrapper is permanent (and has
no finalizer, no table back-reference and no buffer reference) if and only
if the result shape is the raw code-pointer shape, or the callable is a
concrete type value, or it is the unique singleton instance of its type, or
it is a unionall whose canonical wrapper equals itself; in all other cases
the wrapper is managed, carrying a registered finalizer together with the
table back-reference and the specialization buffer. -/
theorem c4_permanence_policy (tenv : TypeEnv) (fobj rt : JVal)
    (fill : List JVal) (envPtr valsPtr : Nat) (st st' : TrampState) (wid : Nat)
    (hmiss : cacheRefGet (phase1 (st.cache.getD []) fill.isEmpty valsPtr).2
      (phase1 (st.cache.getD []) fill.isEmpty valsPtr).1 fobj.id = none)
    (h : jl_get_cfunction_trampoline tenv fobj rt fill envPtr valsPtr st
      = (.ok wid, st')) :
    ∃ w, assocFind st'.wrappers wid = some w
      ∧ (w.permanent = true ↔ permSpec tenv fobj rt)
      ∧ w.hasFinalizer = !w.permanent
      ∧ (w.permanent = true → w.f2 = none ∧ w.f3 = none ∧ w.hasFinalizer = false)
      ∧ (w.permanent = false → w.f2.isSome ∧ w.f3.isSome ∧ w.hasFinalizer = true) := by
  unfold jl_get_cfunction_trampoline at h
  simp only at h
  rw [hmiss] at h
  unfold buildTrampoline at h
  rcases hb : buildNvalEntries tenv envPtr valsPtr fill with e | entries <;>
    rw [hb] at h
  · simp at h
  · rcases ha : tenv.allocOk with _ | _ <;> rw [ha] at h
    · simp at h
    · simp only [if_true, Prod.mk.injEq, Except.ok.injEq] at h
      obtain ⟨h1, h2⟩ := h
      subst h2
      subst h1
      refine ⟨_, assocFind_assocPut_self _ _ _, ?_, rfl, ?_, ?_⟩
      · exact isPermanent_iff tenv fobj rt
      · intro hp
        have hp' : isPermanent tenv fobj rt = true := hp
        simp [hp']
      · intro hp
        have hp' : isPermanent tenv fobj rt = false := hp
        simp [hp']

/-- Witness for C4: a concrete miss build with the raw code-pointer result
shape yields a permanent wrapper. -/
theorem c4_witness :
    ∃ w, assocFind c1st1.wrappers 0 = some w
      ∧ (w.permanent = true ↔ permSpec tenvBase ⟨5⟩ ⟨100⟩)
      ∧ w.hasFinalizer = !w.permanent
      ∧ (w.permanent = true → w.f2 = none ∧ w.f3 = none ∧ w.hasFinalizer = false)
      ∧ (w.permanent = false → w.f2.isSome ∧ w.f3.isSome ∧ w.hasFinalizer = true) :=
  c4_permanence_policy tenvBase ⟨5⟩ ⟨100⟩ [] 0 0 trampSt0 c1st1 0 (by decide)
    (by decide)

/-- C5: on a cache miss with an n-entry template whose instantiations all
succeed (and the wrapper allocation succeeding), trampoline construction
succeeds and the initializer receives a specialization buffer of length n+1
whose slot 0 is the callable and whose slot i+1 is the i-th instantiated
template value, with any instantiated value other than the universal "any"
placeholder that is not both a concrete type and immutable replaced by the
NULL "unknown" sentinel; the same buffer is recorded in the buffer heap. -/
theorem c5_specialization_buffer (tenv : TypeEnv) (fobj rt : JVal)
    (fill : List JVal) (envPtr valsPtr : Nat) (st : TrampState)
    (hmiss : cacheRefGet (phase1 (st.cache.getD []) fill.isEmpty valsPtr).2
      (phase1 (st.cache.getD []) fill.isEmpty valsPtr).1 fobj.id = none)
    (hinst : ∀ e ∈ fill, (tenv.instantiate e envPtr valsPtr).isSome)
    (halloc : tenv.allocOk = true) :
    (∃ wid, (jl_get_cfunction_trampoline tenv fobj rt fill envPtr valsPtr st).1
        = .ok wid)
    ∧ (jl_get_cfunction_trampoline tenv fobj rt fill envPtr
          valsPtr st).2.initCalls.map Prod.snd
        = st.initCalls.map Prod.snd
          ++ [some fobj :: fill.map (sanitizeInst tenv envPtr valsPtr)]
    ∧ assocFind (jl_get_cfunction_trampoline tenv fobj rt fill envPtr
          valsPtr st).2.buffers (st.nextId + 1)
        = some (some fobj :: fill.map (sanitizeInst tenv envPtr valsPtr))
    ∧ (some fobj :: fill.map (sanitizeInst tenv envPtr valsPtr)).length
        = fill.length + 1 := by
  unfold jl_get_cfunction_trampoline buildTrampoline
  simp only
  rw [hmiss, buildNvalEntries_ok tenv envPtr valsPtr fill hinst, halloc]
  refine ⟨⟨_, rfl⟩, ?_, ?_, by simp⟩
  · simp [trampoline_alloc_initCalls]
  · simp [trampoline_alloc_buffers, assocFind_assocPut_self]

/-- Witness for C5: a concrete two-entry template where the first entry
instantiates to the "any" placeholder (kept) and the second to a
non-concrete value (replaced by the NULL sentinel). -/
theorem c5_witness :
    (∃ wid, (jl_get_cfunction_trampoline tenvBase ⟨5⟩ ⟨101⟩ c5fill 9 9
        trampSt0).1 = .ok wid)
    ∧ (jl_get_cfunction_trampoline tenvBase ⟨5⟩ ⟨101⟩ c5fill 9 9
          trampSt0).2.initCalls.map Prod.snd
        = trampSt0.initCalls.map Prod.snd
          ++ [some ⟨5⟩ :: c5fill.map (sanitizeInst tenvBase 9 9)]
    ∧ assocFind (jl_get_cfunction_trampoline tenvBase ⟨5⟩ ⟨101⟩ c5fill 9 9
          trampSt0).2.buffers (trampSt0.nextId + 1)
        = some (some ⟨5⟩ :: c5fill.map (sanitizeInst tenvBase 9 9))
    ∧ (some (⟨5⟩ : JVal) :: c5fill.map (sanitizeInst tenvBase 9 9)).length
        = c5fill.length + 1 :=
  c5_specialization_buffer tenvBase ⟨5⟩ ⟨101⟩ c5fill 9 9 trampSt0
    (by decide) (by decide) (by decide)

/-- C7: if type instantiation (step 2) or the wrapper allocation (step 3)
fails during a cache-miss build, the failure propagates, the partially built
specialization buffer is freed (the buffer heap is unchanged), and the cache
mapping is exactly as before the call — no entry is visible for any key at
either level, and no wrapper, slot or initializer effect occurs. -/
theorem c7_failure_is_invisible (tenv : TypeEnv) (fobj rt : JVal)
    (fill : List JVal) (envPtr valsPtr : Nat) (st : TrampState)
    (hmiss : cacheRefGet (phase1 (st.cache.getD []) fill.isEmpty valsPtr).2
      (phase1 (st.cache.getD []) fill.isEmpty valsPtr).1 fobj.id = none)
    (hfail : (∃ e, buildNvalEntries tenv envPtr valsPtr fill = .error e)
      ∨ tenv.allocOk = false) :
    ∃ e st1,
      jl_get_cfunction_trampoline tenv fobj rt fill envPtr valsPtr st
        = (.error e, st1)
      ∧ (∀ r k, cacheRefGet (st1.cache.getD []) r k
          = cacheRefGet (st.cache.getD []) r k)
      ∧ st1.buffers = st.buffers
      ∧ st1.wrappers = st.wrappers
      ∧ st1.freelist = st.freelist
      ∧ st1.pagesMapped = st.pagesMapped
      ∧ st1.initCalls = st.initCalls := by
  unfold jl_get_cfunction_trampoline buildTrampoline
  simp only
  rw [hmiss]
  rcases hb : buildNvalEntries tenv envPtr valsPtr fill with e | entries
  · exact ⟨e, _, rfl, fun r k => phase1_preserves_get _ _ _ _ _, rfl, rfl, rfl,
      rfl, rfl⟩
  · rcases hfail with ⟨e, he⟩ | ha
    · rw [hb] at he
      simp at he
    · rw [ha]
      exact ⟨.oom, _, rfl, fun r k => phase1_preserves_get _ _ _ _ _, rfl, rfl,
        rfl, rfl, rfl⟩

/-- Witness for C7: a concrete build whose single template entry fails to
instantiate leaves the cache mapping, buffers, wrappers and free list
untouched. -/
theorem c7_witness :
    ∃ e st1,
      jl_get_cfunction_trampoline tenvInstFail ⟨5⟩ ⟨101⟩ [⟨9⟩] 9 9 trampSt0
        = (.error e, st1)
      ∧ (∀ r k, cacheRefGet (st1.cache.getD []) r k
          = cacheRefGet (trampSt0.cache.getD []) r k)
      ∧ st1.buffers = trampSt0.buffers
      ∧ st1.wrappers = trampSt0.wrappers
      ∧ st1.freelist = trampSt0.freelist
      ∧ st1.pagesMapped = trampSt0.pagesMapped
      ∧ st1.initCalls = trampSt0.initCalls :=
  c7_failure_is_invisible tenvInstFail ⟨5⟩ ⟨101⟩ [⟨9⟩] 9 9 trampSt0 (by decide)
    (Or.inl ⟨.instFailure, by decide⟩)

/-- C9 (as stated, false only in the "clears all fields" reading — see C6;
this claim holds): `trampoline_free` followed by `trampoline_alloc` is LIFO:
for every allocator state, the alloc immediately after freeing slot `S`
returns exactly `S` and restores the previous state; in particular, after
the wrapper holding slot `S1` is finalized by `trampoline_deleter`, the next
trampoline request with an empty specialization template (any callable that
misses the cache) receives slot `S1` without mapping a new page. -/
theorem c9_free_then_alloc_is_lifo (tenv : TypeEnv) (fobjD rt : JVal)
    (envPtr valsPtr : Nat) (st : TrampState) (wid : Nat) (w : Wrapper)
    (S1 : Nat) (hw : assocFind st.wrappers wid = some w) (h0 : w.f0 = some S1)
    (hmiss : cacheRefGet ((trampoline_deleter wid st).cache.getD [])
      CacheRef.top fobjD.id = none)
    (halloc : tenv.allocOk = true) :
    (∀ (s : TrampState) (S : Nat),
      trampoline_alloc (trampoline_free S s) = (S, s))
    ∧ (jl_get_cfunction_trampoline tenv fobjD rt [] envPtr valsPtr
        (trampoline_deleter wid st)).1 = .ok (trampoline_deleter wid st).nextId
    ∧ (assocFind (jl_get_cfunction_trampoline tenv fobjD rt [] envPtr valsPtr
          (trampoline_deleter wid st)).2.wrappers
          (trampoline_deleter wid st).nextId).map Wrapper.f0
        = some (some S1)
    ∧ (jl_get_cfunction_trampoline tenv fobjD rt [] envPtr valsPtr
        (trampoline_deleter wid st)).2.pagesMapped = st.pagesMapped := by
  obtain ⟨hfl, hpm, hni⟩ := trampoline_deleter_freelist wid st w S1 hw h0
  have hcall := get_trampoline_empty_fill tenv fobjD rt envPtr valsPtr
    (trampoline_deleter wid st) hmiss halloc S1 st.freelist hfl
  refine ⟨fun s S => rfl, ?_, ?_, ?_⟩
  · rw [hcall]
  · rw [hcall]
    simp [assocFind_assocPut_self]
  · rw [hcall]
    exact hpm

/-- Witness for C9: finalizing the concrete wrapper holding slot 7 and then
requesting a trampoline for the distinct callable 4 hands slot 7 back without
mapping a new page. -/
theorem c9_witness :
    (∀ (s : TrampState) (S : Nat),
      trampoline_alloc (trampoline_free S s) = (S, s))
    ∧ (jl_get_cfunction_trampoline tenvBase ⟨4⟩ ⟨100⟩ [] 0 0
        (trampoline_deleter 0 delSt0)).1 = .ok (trampoline_deleter 0 delSt0).nextId
    ∧ (assocFind (jl_get_cfunction_trampoline tenvBase ⟨4⟩ ⟨100⟩ [] 0 0
          (trampoline_deleter 0 delSt0)).2.wrappers
          (trampoline_deleter 0 delSt0).nextId).map Wrapper.f0
        = some (some 7)
    ∧ (jl_get_cfunction_trampoline tenvBase ⟨4⟩ ⟨100⟩ [] 0 0
        (trampoline_deleter 0 delSt0)).2.pagesMapped = delSt0.pagesMapped :=
  c9_free_then_alloc_is_lifo tenvBase ⟨4⟩ ⟨100⟩ 0 0 delSt0 0
    ⟨some 7, some ⟨3⟩, some .top, some 1, false, true⟩ 7 (by decide) rfl
    (by decide) (by decide)

/-- Counterexample for C6: `trampoline_deleter` does not clear all fields of
the wrapper — the callable-identity field `f[1]` survives the finalizer, as
shown on a concrete fully populated wrapper. -/
theorem c6_counterexample :
    (assocFind (trampoline_deleter 0 delSt0).wrappers 0).map Wrapper.f1
      = some (some ⟨3⟩)
    ∧ some (some (⟨3⟩ : JVal)) ≠ (some none : Option (Option JVal)) := by
  decide

/-- C6 (amended): the finalizer applied to a fully populated wrapper frees
the trampoline slot, removes the cache table entry (slot freed before the
eviction, both inside the same lock-protected step), releases the
specialization buffer, and clears the slot, table back-reference and buffer
fields — the callable-identity field is left in place — so that a second
invocation on the same wrapper performs no frees, no evictions, and no
releases (idempotence: it leaves the state exactly unchanged). -/
theorem c6_deleter_contract (st : TrampState) (wid : Nat) (w : Wrapper)
    (t : Nat) (fo : JVal) (r : CacheRef) (b : Nat)
    (hw : assocFind st.wrappers wid = some w)
    (h0 : w.f0 = some t) (h1 : w.f1 = some fo) (h2 : w.f2 = some r)
    (h3 : w.f3 = some b) :
    (trampoline_deleter wid st).freelist = t :: st.freelist
    ∧ (trampoline_deleter wid st).cache
        = some (cacheRemove (st.cache.getD []) r fo.id)
    ∧ (trampoline_deleter wid st).buffers = assocRemove st.buffers b
    ∧ assocFind (trampoline_deleter wid st).wrappers wid
        = some { w with f0 := none, f2 := none, f3 := none }
    ∧ trampoline_deleter wid (trampoline_deleter wid st)
        = trampoline_deleter wid st := by
  obtain ⟨f0, f1, f2, f3, pm, hf⟩ := w
  simp only at h0 h1 h2 h3
  subst h0
  subst h1
  subst h2
  subst h3
  refine ⟨?_, ?_, ?_, ?_, trampoline_deleter_idem wid st⟩ <;>
    simp [trampoline_deleter, hw, trampoline_free, assocFind_assocPut_self]

/-- Witness for C6 (amended) on the concrete populated wrapper of `delSt0`. -/
theorem c6_witness :
    (trampoline_deleter 0 delSt0).freelist = 7 :: delSt0.freelist
    ∧ (trampoline_deleter 0 delSt0).cache
        = some (cacheRemove (delSt0.cache.getD []) .top (⟨3⟩ : JVal).id)
    ∧ (trampoline_deleter 0 delSt0).buffers = assocRemove delSt0.buffers 1
    ∧ assocFind (trampoline_deleter 0 delSt0).wrappers 0
        = some { (⟨some 7, some ⟨3⟩, some .top, some 1, false, true⟩ : Wrapper)
                 with f0 := none, f2 := none, f3 := none }
    ∧ trampoline_deleter 0 (trampoline_deleter 0 delSt0)
        = trampoline_deleter 0 delSt0 :=
  c6_deleter_contract delSt0 0 ⟨some 7, some ⟨3⟩, some .top, some 1, false, true⟩
    7 ⟨3⟩ .top 1 (by decide) rfl rfl rfl rfl

/-- C10: reserved sentinel library names are recognized by pointer identity,
not by string contents: a NULL name and the three sentinel constants map to
their fixed handles with the registry left untouched, while any name whose
pointer differs from all three sentinels — even one whose characters equal a
sentinel's character-for-character — is treated as an ordinary named library
and goes through the registry path. -/
theorem c10_sentinels_recognized_by_identity (env : SymEnv) (te : Bool)
    (st : LibState) (l : CStr)
    (hp1 : l.ptr ≠ JL_EXE_LIBNAME.ptr)
    (hp2 : l.ptr ≠ JL_LIBJULIA_INTERNAL_DL_LIBNAME.ptr)
    (hp3 : l.ptr ≠ JL_LIBJULIA_DL_LIBNAME.ptr) :
    jl_get_library_ env none te st = (.ok jl_RTLD_DEFAULT_handle, st)
    ∧ jl_get_library_ env (some JL_EXE_LIBNAME) te st = (.ok jl_exe_handle, st)
    ∧ jl_get_library_ env (some JL_LIBJULIA_INTERNAL_DL_LIBNAME) te st
        = (.ok jl_libjulia_internal_handle, st)
    ∧ jl_get_library_ env (some JL_LIBJULIA_DL_LIBNAME) te st
        = (.ok jl_libjulia_handle, st)
    ∧ jl_get_library_ env (some l) te st = libMapResolve env l.str te st := by
  refine ⟨rfl, rfl, rfl, rfl, ?_⟩
  simp [jl_get_library_, hp1, hp2, hp3]

/-- Witness for C10: the name ⟨999, "@exe"⟩, character-equal to the
`JL_EXE_LIBNAME` sentinel but a distinct pointer, takes the registry path. -/
theorem c10_witness :
    jl_get_library_ envLoadFail none false libSt0
      = (.ok jl_RTLD_DEFAULT_handle, libSt0)
    ∧ jl_get_library_ envLoadFail (some JL_EXE_LIBNAME) false libSt0
        = (.ok jl_exe_handle, libSt0)
    ∧ jl_get_library_ envLoadFail (some JL_LIBJULIA_INTERNAL_DL_LIBNAME) false
        libSt0 = (.ok jl_libjulia_internal_handle, libSt0)
    ∧ jl_get_library_ envLoadFail (some JL_LIBJULIA_DL_LIBNAME) false libSt0
        = (.ok jl_libjulia_handle, libSt0)
    ∧ jl_get_library_ envLoadFail (some libNameExeCopy) false libSt0
        = libMapResolve envLoadFail libNameExeCopy.str false libSt0 :=
  c10_sentinels_recognized_by_identity envLoadFail false libSt0 libNameExeCopy
    (by decide) (by decide) (by decide)

/-- Counterexample for C8: when loading fails (errors deferred), the NULL
result is not cached, so resolving the same name twice invokes the platform
loader twice — the claim's "invoked at most once across the two calls" fails
at this concrete input (both calls return the same null handle). -/
theorem c8_counterexample :
    (jl_get_library_ envLoadFail (some libNameM) false c8st1).1 = .ok 0
    ∧ (jl_get_library_ envLoadFail (some libNameM) false c8st1).2.loaderCalls = 2
    ∧ libSt0.loaderCalls = 0
    ∧ c8st1.loaderCalls = 1
    ∧ (jl_get_library_ envLoadFail (some libNameM) false libSt0).1 = .ok 0 := by
  decide

/-- C8 (amended): once a resolution of a library name returns a non-null
handle, that handle is published in the registry: resolving again returns
the identical handle, leaves the state unchanged, and never invokes the
platform loader again — across the two calls the loader ran at most once.
(When the load fails, the null result is not cached and a later resolution
re-invokes the loader; see the counterexample.) -/
theorem c8_nonnull_handle_published_once (env : SymEnv) (f_lib : Option CStr)
    (te : Bool) (st st1 : LibState) (h : Nat)
    (hcall : jl_get_library_ env f_lib te st = (.ok h, st1)) (hh : h ≠ 0) :
    jl_get_library_ env f_lib te st1 = (.ok h, st1)
    ∧ st1.loaderCalls ≤ st.loaderCalls + 1 := by
  rcases f_lib with _ | l
  · simp only [jl_get_library_, Prod.mk.injEq, Except.ok.injEq] at hcall
    obtain ⟨h1, h2⟩ := hcall
    subst h1
    subst h2
    exact ⟨rfl, by simp⟩
  · simp only [jl_get_library_] at hcall ⊢
    by_cases e1 : l.ptr = JL_EXE_LIBNAME.ptr
    · rw [if_pos e1] at hcall ⊢
      simp only [Prod.mk.injEq, Except.ok.injEq] at hcall
      obtain ⟨h1, h2⟩ := hcall
      subst h1
      subst h2
      exact ⟨rfl, by simp⟩
    · rw [if_neg e1] at hcall ⊢
      by_cases e2 : l.ptr = JL_LIBJULIA_INTERNAL_DL_LIBNAME.ptr
      · rw [if_pos e2] at hcall ⊢
        simp only [Prod.mk.injEq, Except.ok.injEq] at hcall
        obtain ⟨h1, h2⟩ := hcall
        subst h1
        subst h2
        exact ⟨rfl, by simp⟩
      · rw [if_neg e2] at hcall ⊢
        by_cases e3 : l.ptr = JL_LIBJULIA_DL_LIBNAME.ptr
        · rw [if_pos e3] at hcall ⊢
          simp only [Prod.mk.injEq, Except.ok.injEq] at hcall
          obtain ⟨h1, h2⟩ := hcall
          subst h1
          subst h2
          exact ⟨rfl, by simp⟩
        · rw [if_neg e3] at hcall ⊢
          exact libMapResolve_idem env l.str te st st1 h hcall hh

/-- Witness for C8 (amended): after "m" resolves to handle 7, resolving it
again returns 7 with the registry state unchanged. -/
theorem c8_witness :
    jl_get_library_ envSymAbsent (some libNameM) true c8stOk = (.ok 7, c8stOk)
    ∧ c8stOk.loaderCalls ≤ libSt0.loaderCalls + 1 :=
  c8_nonnull_handle_published_once envSymAbsent (some libNameM) true libSt0
    c8stOk 7 (by decide) (by decide)

/-- Counterexample for C2: looking up a symbol absent from the successfully
loaded library "m" (handle 7) raises symbol-not-found, but the call-site
cache cell is *not* null afterwards — it holds the library handle 7. -/
theorem c2_counterexample :
    (jl_load_and_lookup envSymAbsent (some libNameM) "f" 0 libSt0).1
        = .error .symNotFound
    ∧ (jl_load_and_lookup envSymAbsent (some libNameM) "f" 0 libSt0).2.1 = 7
    ∧ (7 : Nat) ≠ 0 := by
  decide

/-- C2 (amended): with an initially null cache cell and a library that loads
successfully (non-null handle `h`) but lacks the requested symbol,
`jl_load_and_lookup` raises symbol-not-found; afterwards the cell holds the
non-null library handle `h` — the cell caches the library handle, never a
symbol address, so the failed symbol lookup itself stores nothing beyond
that handle. -/
theorem c2_symbol_failure_stores_handle (env : SymEnv) (f_lib : Option CStr)
    (name : String) (st st1 : LibState) (h : Nat)
    (hlib : jl_get_library_ env f_lib true st = (.ok h, st1))
    (hh : h ≠ 0) (hsym : env.dlsym h name = none) :
    jl_load_and_lookup env f_lib name 0 st
      = (.error .symNotFound, h, { st1 with dlsymCalls := st1.dlsymCalls + 1 })
    ∧ h ≠ 0 := by
  refine ⟨?_, hh⟩
  unfold jl_load_and_lookup
  rw [if_pos rfl, hlib]
  simp [hsym]

/-- Witness for C2 (amended) on the concrete environment where "m" loads as
handle 7 and no symbol resolves. -/
theorem c2_witness :
    jl_load_and_lookup envSymAbsent (some libNameM) "f" 0 libSt0
      = (.error .symNotFound, 7, { c8stOk with dlsymCalls := c8stOk.dlsymCalls + 1 })
    ∧ (7 : Nat) ≠ 0 :=
  c2_symbol_failure_stores_handle envSymAbsent (some libNameM) "f" libSt0
    c8stOk 7 (by decide) (by decide) (by decide)

/-- Counterexample for C3: with a non-null cache cell (5), the call still
invokes the platform symbol-lookup primitive (the dlsym counter increments)
and returns the freshly resolved address 9, not the cell's cached value 5 —
the cell caches the library handle, not a resolved symbol address. -/
theorem c3_counterexample :
    (jl_load_and_lookup envSymPresent none "f" 5 libSt0).1 = .ok 9
    ∧ (9 : Nat) ≠ 5
    ∧ (jl_load_and_lookup envSymPresent none "f" 5 libSt0).2.2.dlsymCalls = 1
    ∧ libSt0.dlsymCalls = 0 := by
  decide

/-- C3 (amended): when the cache cell holds a non-null value, that value is
the library handle: the library-resolution step is skipped entirely (the
registry map and loader counter are untouched, visible in the unchanged
state record), the platform symbol-lookup primitive still runs on every call
against the cached handle, and the cell is unchanged; on the slow path what
gets atomically stored into the cell is the library handle obtained from
`jl_get_library`, not the resolved symbol address. -/
theorem c3_cell_caches_library_handle (env : SymEnv) (f_lib : Option CStr)
    (name : String) (cell : Nat) (st : LibState) (hc : cell ≠ 0) :
    jl_load_and_lookup env f_lib name cell st
      = ((match env.dlsym cell name with
          | some p => Except.ok p
          | none => Except.error LibErr.symNotFound), cell,
         { st with dlsymCalls := st.dlsymCalls + 1 })
    ∧ (∀ h st1, jl_get_library_ env f_lib true st = (.ok h, st1) →
        (jl_load_and_lookup env f_lib name 0 st).2.1 = h) := by
  constructor
  · unfold jl_load_and_lookup
    rw [if_neg hc]
    rcases hd : env.dlsym cell name with _ | p <;> simp [hd]
  · intro h st1 hlib
    unfold jl_load_and_lookup
    rw [if_pos rfl, hlib]
    rcases hd : env.dlsym h name with _ | p <;> simp [hd]

/-- Witness for C3 (amended) at cell 5 in the environment where handle 5
resolves every symbol to address 9. -/
theorem c3_witness :
    jl_load_and_lookup envSymPresent none "f" 5 libSt0
      = ((match envSymPresent.dlsym 5 "f" with
          | some p => Except.ok p
          | none => Except.error LibErr.symNotFound), 5,
         { libSt0 with dlsymCalls := libSt0.dlsymCalls + 1 })
    ∧ (∀ h st1, jl_get_library_ envSymPresent none true libSt0 = (.ok h, st1) →
        (jl_load_and_lookup envSymPresent none "f" 0 libSt0).2.1 = h) :=
  c3_cell_caches_library_handle envSymPresent none "f" 5 libSt0 (by decide)

end JuliaCCall
